import Mathlib

/-!
Verification of the bridge/migration script `dataGen.py` (webPortal repository).

The script migrates rows from a source relational store into a denormalized
target store.  Its core is a set of field coercers (`to_date`, `to_dt`,
`float(...)`, `int(...)`, bounded-string slicing), identity normalizers
(`norm_client_id`, `norm_case_id`, synthesize-if-absent identifiers) and one
transform loop per entity class, followed by a full-refresh load.

This file shallowly embeds those functions over an explicit model of Python
values (`PyVal`).  Python strings are modelled as `List Char`; Python `float`
values are modelled as exact rationals (`Rat`) — no verified property below
depends on IEEE rounding, only on success/failure of the conversions and on
integer-valued scores.  Operations that can raise (`float(...)`, `int(...)`,
`row["key"]`, slicing a non-string) return `Except PyErr`; the `try/except`
blocks of the source are the explicit `match`es on those results.
Calls to `datetime.utcnow()`, `date.today()` and `uuid4().hex` are
determinized through an environment `Env`: a single run sees one `today`,
one `now`, and one stream of fresh hex tokens per `uuid4()` call site.
-/

namespace DataGen

/-- Python exception classes reachable in the embedded code paths. -/
inductive PyErr where
  | keyError
  | valueError
  | typeError
deriving DecidableEq, Repr

/-- `datetime.date`: a calendar date.  (Python restricts the year to
1..9999; the embedding leaves the fields unconstrained — every value the
script actually builds is in range.) -/
structure PyDate where
  year : Nat
  month : Nat
  day : Nat
deriving DecidableEq, Repr

/-- `datetime.datetime`: date plus time of day; `tz` is the UTC offset in
minutes for an aware value, `none` for a naive one. -/
structure PyDateTime where
  year : Nat
  month : Nat
  day : Nat
  hour : Nat
  minute : Nat
  second : Nat
  micro : Nat
  tz : Option Int
deriving DecidableEq, Repr

/-- A Python string, as its list of characters. -/
abbrev PyStr := List Char

/-- String-literal helper: the character list of a Lean string literal. -/
def pstr (s : String) : PyStr := s.data

/-- The loosely-typed values a source row can hold: `None`, booleans,
strings, ints, floats (as exact rationals), dates, datetimes, and mappings
(for JSON-ish columns such as `typology_tags`). -/
inductive PyVal where
  | none
  | bool (b : Bool)
  | str (s : PyStr)
  | int (n : Int)
  | float (q : Rat)
  | date (d : PyDate)
  | dt (t : PyDateTime)
  | dict (entries : List (PyStr × PyVal))

/-- A source row: a mapping from column name to raw value
(`.mappings()` rows of SQLAlchemy). -/
abbrev Row := List (PyStr × PyVal)

/-- `row.get(k)`: the value under `k`, `None` when the key is absent. -/
def pyGet (r : Row) (k : PyStr) : PyVal := (List.lookup k r).getD PyVal.none

/-- `row[k]`: the value under `k`; raises `KeyError` when absent. -/
def pyItem (r : Row) (k : PyStr) : Except PyErr PyVal :=
  match List.lookup k r with
  | some v => .ok v
  | Option.none => .error .keyError

/-- Python truthiness (`bool(v)`), as used by `x or y` and `if v:`. -/
def pyTruthy : PyVal → Bool
  | .none => false
  | .bool b => b
  | .str s => !s.isEmpty
  | .int n => n != 0
  | .float q => q != 0
  | .date _ => true
  | .dt _ => true
  | .dict l => !l.isEmpty

/-- Python `a or b`: `a` when truthy, else `b`. -/
def pyOr (a b : PyVal) : PyVal := if pyTruthy a then a else b

/-- The whitespace set of `str.strip()` / `float()` / `int()`.
(Python also strips some non-ASCII Unicode spaces; the source data never
carries them and no verified property depends on them.) -/
def pyIsSpace (c : Char) : Bool :=
  c = ' ' || c = '\t' || c = '\n' || c = '\r' || c = '\x0b' || c = '\x0c'

/-- Leading-whitespace removal (`lstrip`). -/
def stripLeft (l : PyStr) : PyStr := l.dropWhile pyIsSpace

/-- Trailing-whitespace removal (`rstrip`). -/
def stripRight (l : PyStr) : PyStr := (stripLeft l.reverse).reverse

/-- `str.strip()`. -/
def strip (l : PyStr) : PyStr := stripRight (stripLeft l)

/-- Digit value of a digit character. -/
def digitVal (c : Char) : Nat := c.toNat - 48

/-- Numeric value of a digit string (most significant first). -/
def digitsVal (l : PyStr) : Nat := l.foldl (fun a c => 10 * a + digitVal c) 0

/-- Decimal rendering of a natural number, as `str()` produces it. -/
def natChars (n : Nat) : PyStr := Nat.toDigits 10 n

/-- Decimal rendering of an integer, as `str()` produces it. -/
def intChars : Int → PyStr
  | .ofNat n => natChars n
  | .negSucc m => '-' :: natChars (m + 1)

/-- Left zero-padding to a fixed width (used when rendering dates). -/
def padZ (w : Nat) (s : PyStr) : PyStr := List.replicate (w - s.length) '0' ++ s

/-- `str(date)`: ISO `YYYY-MM-DD`. -/
def renderDate (d : PyDate) : PyStr :=
  padZ 4 (natChars d.year) ++ ['-'] ++ padZ 2 (natChars d.month) ++ ['-'] ++ padZ 2 (natChars d.day)

/-- The `+HH:MM` suffix of an aware datetime's `str()`. -/
def renderTz : Option Int → PyStr
  | Option.none => []
  | some off =>
      (if off < 0 then ['-'] else ['+']) ++
        padZ 2 (natChars (off.natAbs / 60)) ++ [':'] ++ padZ 2 (natChars (off.natAbs % 60))

/-- `str(datetime)`: `YYYY-MM-DD HH:MM:SS[.ffffff][+HH:MM]`. -/
def renderDT (t : PyDateTime) : PyStr :=
  renderDate ⟨t.year, t.month, t.day⟩ ++ [' '] ++
    padZ 2 (natChars t.hour) ++ [':'] ++ padZ 2 (natChars t.minute) ++ [':'] ++
    padZ 2 (natChars t.second) ++
    (if t.micro = 0 then [] else ['.'] ++ padZ 6 (natChars t.micro)) ++
    renderTz t.tz

/-- `repr(float)`, rendered as a sign, integer part and six fractional
digits.  (CPython prints the shortest round-tripping decimal of the IEEE
value; that is not statable over exact rationals.  No embedded code path
applies `str()` to a float and no verified property depends on this.) -/
def ratRepr (q : Rat) : PyStr :=
  let sgn : PyStr := if q < 0 then ['-'] else []
  let a : Rat := |q|
  let ip : Nat := a.floor.toNat
  let micro : Nat := ((a - a.floor) * 1000000).floor.toNat
  sgn ++ natChars ip ++ ['.'] ++ padZ 6 (natChars micro)

/-- `repr(dict)`; no embedded code path applies `str()` to a dict, so the
entries are abbreviated. -/
def dictRepr : List (PyStr × PyVal) → PyStr
  | [] => pstr "\x7b\x7d"
  | _ => pstr "\x7b...\x7d"

/-- `str(v)` for every value shape the rows can hold. -/
def pyStrOf : PyVal → PyStr
  | .none => pstr "None"
  | .bool b => if b then pstr "True" else pstr "False"
  | .str s => s
  | .int n => intChars n
  | .float q => ratRepr q
  | .date d => renderDate d
  | .dt t => renderDT t
  | .dict l => dictRepr l

/-- `s.startswith(p)` for strings. -/
def strStarts (p s : PyStr) : Bool := s.take p.length == p

/-- ASCII `str.lower()` (the risk ratings in play are ASCII). -/
def lowerChar (c : Char) : Char :=
  if 'A' ≤ c ∧ c ≤ 'Z' then Char.ofNat (c.toNat + 32) else c

/-- `s.lower()`. -/
def lowerStr (s : PyStr) : PyStr := s.map lowerChar

/-- `v[:n]` — slicing; returns the truncated string for a string value and
raises `TypeError` otherwise (none of the sliced columns hold lists). -/
def pySliceStr (v : PyVal) (n : Nat) : Except PyErr PyStr :=
  match v with
  | .str s => .ok (s.take n)
  | _ => .error .typeError

/-! ### `datetime.fromisoformat` and the numeric constructors -/

/-- Exactly `k` leading digits of `s`, with the remainder; `none` when `s`
has fewer than `k` digits there. -/
def takeDigits (k : Nat) (s : PyStr) : Option (Nat × PyStr) :=
  let pre := s.take k
  if pre.length = k && pre.all Char.isDigit then some (digitsVal pre, s.drop k)
  else Option.none

/-- Gregorian leap year. -/
def isLeap (y : Nat) : Bool := (y % 4 = 0 && y % 100 ≠ 0) || y % 400 = 0

/-- Days in a month (as `datetime` validates them). -/
def daysInMonth (y m : Nat) : Nat :=
  if m = 2 then (if isLeap y then 29 else 28)
  else if m = 4 || m = 6 || m = 9 || m = 11 then 30
  else 31

/-- The fractional-seconds part `.fff` / `.ffffff`, in microseconds, with
the remainder; `(0, s)` when there is none. -/
def parseFrac (s : PyStr) : Option (Nat × PyStr) :=
  match s with
  | '.' :: r =>
      match takeDigits 6 r with
      | some (f, rest) => some (f, rest)
      | Option.none =>
          match takeDigits 3 r with
          | some (f, rest) => some (f * 1000, rest)
          | Option.none => Option.none
  | _ => some (0, s)

/-- A trailing `±HH:MM` UTC offset, in minutes; `(none, s)` when there is
no offset.  (`fromisoformat` also accepts an offset with seconds; the
script never produces one and no verified property depends on it.) -/
def parseOffset (s : PyStr) : Option (Option Int × PyStr) :=
  match s with
  | '+' :: r =>
      match takeDigits 2 r with
      | some (oh, ':' :: r2) =>
          match takeDigits 2 r2 with
          | some (om, rest) =>
              if oh < 24 && om < 60 then some (some ((oh * 60 + om : Nat) : Int), rest)
              else Option.none
          | Option.none => Option.none
      | _ => Option.none
  | '-' :: r =>
      match takeDigits 2 r with
      | some (oh, ':' :: r2) =>
          match takeDigits 2 r2 with
          | some (om, rest) =>
              if oh < 24 && om < 60 then some (some (-((oh * 60 + om : Nat) : Int)), rest)
              else Option.none
          | Option.none => Option.none
      | _ => Option.none
  | _ => some (Option.none, s)

/-- The time-of-day part `HH[:MM[:SS[.ffffff]]][±HH:MM]`, which must
consume the whole remainder. -/
def parseTime (s : PyStr) : Option (Nat × Nat × Nat × Nat × Option Int) :=
  match takeDigits 2 s with
  | Option.none => Option.none
  | some (hh, r1) =>
      let rest :=
        match r1 with
        | ':' :: r2 =>
            match takeDigits 2 r2 with
            | Option.none => Option.none
            | some (mm, r3) =>
                match r3 with
                | ':' :: r4 =>
                    match takeDigits 2 r4 with
                    | Option.none => Option.none
                    | some (ss, r5) =>
                        match parseFrac r5 with
                        | Option.none => Option.none
                        | some (us, r6) => some (mm, ss, us, r6)
                | _ => some (mm, 0, 0, r3)
        | _ => some (0, 0, 0, r1)
      match rest with
      | Option.none => Option.none
      | some (mm, ss, us, r6) =>
          match parseOffset r6 with
          | some (tz, []) =>
              if hh < 24 && mm < 60 && ss < 60 then some (hh, mm, ss, us, tz)
              else Option.none
          | _ => Option.none

/-- `datetime.fromisoformat(s)` (the strict pre-3.11 grammar the script's
`replace("Z", "+00:00")` is written for): `YYYY-MM-DD` then optionally any
single separator character and a time of day; raises `ValueError`
otherwise. -/
def fromisoformat (s : PyStr) : Except PyErr PyDateTime :=
  match takeDigits 4 s with
  | Option.none => .error .valueError
  | some (y, r1) =>
      match r1 with
      | '-' :: r2 =>
          match takeDigits 2 r2 with
          | Option.none => .error .valueError
          | some (mo, r3) =>
              match r3 with
              | '-' :: r4 =>
                  match takeDigits 2 r4 with
                  | Option.none => .error .valueError
                  | some (d, r5) =>
                      if 1 ≤ mo && mo ≤ 12 && 1 ≤ d && d ≤ daysInMonth y mo then
                        match r5 with
                        | [] => .ok ⟨y, mo, d, 0, 0, 0, 0, Option.none⟩
                        | _ :: r6 =>
                            match parseTime r6 with
                            | some (hh, mm, ss, us, tz) => .ok ⟨y, mo, d, hh, mm, ss, us, tz⟩
                            | Option.none => .error .valueError
                      else .error .valueError
              | _ => .error .valueError
      | _ => .error .valueError

/-- The date part of a datetime (`.date()`). -/
def dtDate (t : PyDateTime) : PyDate := ⟨t.year, t.month, t.day⟩

/-- `s.replace("Z", "+00:00")`. -/
def replaceZ : PyStr → PyStr
  | [] => []
  | c :: rest => (if c = 'Z' then pstr "+00:00" else [c]) ++ replaceZ rest

/-- A date-typed target value: `date` instances and `datetime` instances
(Python's `datetime` is a subclass of `date`, so `isinstance(v, date)`
accepts both). -/
inductive DateV where
  | d (x : PyDate)
  | t (x : PyDateTime)
deriving DecidableEq, Repr

/-- `to_date` (dataGen.py lines 26-34): return `default` for `None`, any
`date` (hence also `datetime`) instance as-is, and otherwise
`datetime.fromisoformat(str(v)).date()` with every parse failure caught
and degraded to `default`. -/
def to_date (v : PyVal) (default : PyDate := ⟨1990, 1, 1⟩) : DateV :=
  match v with
  | .none => .d default
  | .date x => .d x
  | .dt x => .t x
  | w =>
      match fromisoformat (pyStrOf w) with
      | .ok t => .d (dtDate t)
      | .error _ => .d default

/-- `to_dt` (dataGen.py lines 36-46): return `default` for `None`, a
`datetime` instance as-is, and otherwise
`datetime.fromisoformat(str(v).replace("Z", "+00:00"))` with every parse
failure caught and degraded to `default`.  In the source `default=None`
makes each call site fall back to `datetime.utcnow()`; the embedding
passes that resolved value (the run's `Env.now`) as `default`. -/
def to_dt (v : PyVal) (default : PyDateTime) : PyDateTime :=
  match v with
  | .none => default
  | .dt x => x
  | w =>
      match fromisoformat (replaceZ (pyStrOf w)) with
      | .ok t => t
      | .error _ => default

/-- `float(s)` on a string: optional sign, digits with an optional point,
optional exponent, surrounded by optional whitespace.  (Digit-group
underscores and `inf`/`nan` are accepted by CPython but never occur in the
source data; no verified property depends on them.) -/
def parseFloatStr (s0 : PyStr) : Option Rat :=
  let s1 := strip s0
  let (sgn, s2) : Rat × PyStr :=
    match s1 with
    | '+' :: r => (1, r)
    | '-' :: r => (-1, r)
    | r => (1, r)
  let ip := s2.takeWhile Char.isDigit
  let s3 := s2.dropWhile Char.isDigit
  let (fp, s4) : Option PyStr × PyStr :=
    match s3 with
    | '.' :: r => (some (r.takeWhile Char.isDigit), r.dropWhile Char.isDigit)
    | r => (Option.none, r)
  if ip.isEmpty && (match fp with | some f => f.isEmpty | Option.none => true) then Option.none
  else
    let mant : Rat :=
      (digitsVal ip : Rat) +
        (match fp with
         | some f => (digitsVal f : Rat) / ((10 : Rat) ^ f.length)
         | Option.none => 0)
    match s4 with
    | [] => some (sgn * mant)
    | 'e' :: r | 'E' :: r =>
        let (esgn, r2) : Int × PyStr :=
          match r with
          | '+' :: r2 => (1, r2)
          | '-' :: r2 => (-1, r2)
          | r2 => (1, r2)
        let ed := r2.takeWhile Char.isDigit
        let r3 := r2.dropWhile Char.isDigit
        if ed.isEmpty || !r3.isEmpty then Option.none
        else some (sgn * mant * (10 : Rat) ^ (esgn * (digitsVal ed : Int)))
    | _ => Option.none

/-- `int(s)` on a string: optional sign and a nonempty digit run,
surrounded by optional whitespace. -/
def parseIntStr (s0 : PyStr) : Option Int :=
  let s1 := strip s0
  let (sgn, s2) : Int × PyStr :=
    match s1 with
    | '+' :: r => (1, r)
    | '-' :: r => (-1, r)
    | r => (1, r)
  if s2.isEmpty || !s2.all Char.isDigit then Option.none
  else some (sgn * (digitsVal s2 : Int))

/-- The `float(...)` builtin: numbers convert, strings parse or raise
`ValueError`, everything else raises `TypeError`. -/
def pyFloat (v : PyVal) : Except PyErr Rat :=
  match v with
  | .bool b => .ok (if b then 1 else 0)
  | .int n => .ok (n : Rat)
  | .float q => .ok q
  | .str s =>
      match parseFloatStr s with
      | some q => .ok q
      | Option.none => .error .valueError
  | _ => .error .typeError

/-- The `int(...)` builtin: numbers convert (floats truncate toward zero),
strings parse or raise `ValueError`, everything else raises `TypeError`. -/
def pyInt (v : PyVal) : Except PyErr Int :=
  match v with
  | .bool b => .ok (if b then 1 else 0)
  | .int n => .ok n
  | .float q => .ok (q.num.tdiv (q.den : Int))
  | .str s =>
      match parseIntStr s with
      | some n => .ok n
      | Option.none => .error .valueError
  | _ => .error .typeError

/-- The annual-income / amount coercion pattern of the transformers:
`float(r.get(col) or 0)`. -/
def floatOrZero (v : PyVal) : Except PyErr Rat := pyFloat (pyOr v (PyVal.int 0))

/-- The flag coercion pattern of the client transformer:
`int(r.get(col) or 0)`. -/
def intOrZero (v : PyVal) : Except PyErr Int := pyInt (pyOr v (PyVal.int 0))

/-! ### Identity normalizers -/

/-- `s.zfill(w)`: left-pad with `'0'` to width `w`, keeping a leading sign
in front of the padding. -/
def zfill (w : Nat) (s : PyStr) : PyStr :=
  match s with
  | c :: rest =>
      if c = '+' || c = '-' then c :: (List.replicate (w - s.length) '0' ++ rest)
      else List.replicate (w - s.length) '0' ++ s
  | [] => List.replicate w '0'

/-- The string core of `norm_client_id` (dataGen.py lines 48-52):
strip; pass through if the result starts with `"C"`, otherwise prepend
`"C"` to the value zero-filled to width 7. -/
def normCID (raw : PyStr) : PyStr :=
  let s := strip raw
  if strStarts (pstr "C") s then s else pstr "C" ++ zfill 7 s

/-- `norm_client_id(v)`: `str(v).strip()` then the canonicalization above. -/
def norm_client_id (v : PyVal) : PyStr := normCID (pyStrOf v)

/-- `norm_case_id(v)` (dataGen.py lines 54-56): `str(v).strip()` when `v`
is not `None`, else `""`; when that string is empty, synthesize
`CASE-` followed by the first 20 hex characters of a fresh `uuid4` token
(`tok` is the token drawn by this call). -/
def norm_case_id (tok : PyStr) (v : PyVal) : PyStr :=
  let s : PyStr :=
    match v with
    | .none => []
    | w => strip (pyStrOf w)
  if s.isEmpty then pstr "CASE-" ++ tok.take 20 else s

/-- The ambient effects of one run, determinized: `date.today()`,
`datetime.utcnow()`, and one stream of fresh `uuid4().hex` tokens per
`uuid4()` call site (indexed by the row the call serves). -/
structure Env where
  today : PyDate
  now : PyDateTime
  uuidLogin : Nat → PyStr
  uuidTx : Nat → PyStr
  uuidCase : Nat → PyStr
  uuidAlert : Nat → PyStr
  uuidAlertCase : Nat → PyStr

/-! ### Target records (the typed contract of the analytics store) -/

/-- Target `Client` row (dataGen.py lines 204-219). -/
structure Client where
  client_id : PyStr
  full_name : PyStr
  dob : DateV
  gender : PyStr
  country : PyStr
  city : PyStr
  segment : PyStr
  occupation : PyStr
  annual_income : Rat
  account_open_date : DateV
  pep_flag : Int
  sanctions_flag : Int
  profile_text : PyVal
  risk_rating : PyStr

/-- Target `RiskResult` row (dataGen.py lines 223-229), synthesized 1:1
with each client. -/
structure RiskResult where
  client_id : PyStr
  risk_score : Rat
  rule_hits : PyVal
  model_reason : PyStr
  last_updated : PyDateTime

/-- Target `ClientAddressHistory` row (dataGen.py lines 239-246). -/
structure ClientAddressHistory where
  client_id : PyStr
  address_line : PyStr
  city : PyStr
  country : PyStr
  from_date : DateV
  to_date : Option DateV

/-- Target `ClientPhoneHistory` row (dataGen.py lines 254-259). -/
structure ClientPhoneHistory where
  client_id : PyStr
  phone : PyStr
  from_date : DateV
  to_date : Option DateV

/-- Target `LoginActivity` row (dataGen.py lines 267-275). -/
structure LoginActivity where
  login_id : PyStr
  client_id : PyStr
  ip_address : PyStr
  ip_country : PyStr
  status : PyStr
  channel : PyStr
  logged_in_at : PyDateTime

/-- Target `Transaction` row (dataGen.py lines 283-295). -/
structure Transaction where
  tx_id : PyStr
  client_id : PyStr
  counterparty_id : PyStr
  tx_type : PyStr
  direction : PyStr
  amount : Rat
  currency : PyStr
  channel : PyStr
  country : PyStr
  timestamp : PyDateTime
  typology_tags : PyVal

/-- Target `Case` row (dataGen.py lines 303-310). -/
structure Case where
  case_id : PyStr
  client_id : PyStr
  status : PyStr
  opened_at : PyDateTime
  closed_at : Option PyDateTime
  title : PyStr

/-- Target `Alert` row (dataGen.py lines 318-326). -/
structure Alert where
  alert_id : PyStr
  client_id : PyStr
  case_id : Option PyStr
  severity : PyStr
  status : PyStr
  created_at : PyDateTime
  description : PyVal

/-! ### Entity transformers (one loop body each) -/

/-- The client loop body (dataGen.py lines 202-230): normalize
`r["client_id"]` (a `KeyError` when absent), build the `Client` with the
per-field default-slice-coerce policy, and the `RiskResult` alongside it;
evaluation order follows the source, so the first failing field determines
the exception. -/
def clientFromRow (env : Env) (r : Row) : Except PyErr (Client × RiskResult) := do
  let cidv ← pyItem r (pstr "client_id")
  let cid := norm_client_id cidv
  let full_name ← pySliceStr (pyOr (pyGet r (pstr "full_name")) (.str (pstr "Unknown Client"))) 120
  let dob := to_date (pyGet r (pstr "dob"))
  let gender ← pySliceStr (pyOr (pyGet r (pstr "gender")) (.str (pstr "X"))) 16
  let country ← pySliceStr (pyOr (pyGet r (pstr "country")) (.str (pstr "Unknown"))) 64
  let city ← pySliceStr (pyOr (pyGet r (pstr "city")) (.str (pstr "Unknown"))) 64
  let segment ← pySliceStr (pyOr (pyGet r (pstr "segment")) (.str (pstr "retail"))) 40
  let occupation ← pySliceStr (pyOr (pyGet r (pstr "occupation")) (.str (pstr "unknown"))) 80
  let annual_income ← floatOrZero (pyGet r (pstr "annual_income"))
  let account_open_date := to_date (pyGet r (pstr "account_open_date")) env.today
  let pep ← intOrZero (pyGet r (pstr "pep_flag"))
  let sanc ← intOrZero (pyGet r (pstr "sanctions_flag"))
  let profile_text := pyOr (pyGet r (pstr "profile_text")) (.str [])
  let risk_rating ← pySliceStr (pyOr (pyGet r (pstr "risk_rating")) (.str (pstr "Standard"))) 16
  let c : Client :=
    { client_id := cid, full_name := full_name, dob := dob, gender := gender,
      country := country, city := city, segment := segment, occupation := occupation,
      annual_income := annual_income, account_open_date := account_open_date,
      pep_flag := pep, sanctions_flag := sanc, profile_text := profile_text,
      risk_rating := risk_rating }
  let rr : RiskResult :=
    { client_id := cid,
      risk_score := if strStarts (pstr "high") (lowerStr c.risk_rating) then 75 else 35,
      rule_hits := .dict [],
      model_reason := pstr "Imported from production source",
      last_updated := env.now }
  pure (c, rr)

/-- The address-history loop body (dataGen.py lines 239-246). -/
def addrFromRow (env : Env) (r : Row) : Except PyErr ClientAddressHistory := do
  let cidv ← pyItem r (pstr "client_id")
  let address_line ← pySliceStr (pyOr (pyGet r (pstr "address_line")) (.str [])) 160
  let city ← pySliceStr (pyOr (pyGet r (pstr "city")) (.str (pstr "Unknown"))) 64
  let country ← pySliceStr (pyOr (pyGet r (pstr "country")) (.str (pstr "Unknown"))) 64
  pure
    { client_id := norm_client_id cidv, address_line := address_line,
      city := city, country := country,
      from_date := to_date (pyGet r (pstr "from_date")) env.today,
      to_date :=
        if pyTruthy (pyGet r (pstr "to_date")) then some (to_date (pyGet r (pstr "to_date")))
        else Option.none }

/-- The phone-history loop body (dataGen.py lines 254-259). -/
def phoneFromRow (env : Env) (r : Row) : Except PyErr ClientPhoneHistory := do
  let cidv ← pyItem r (pstr "client_id")
  let phone ← pySliceStr (pyOr (pyGet r (pstr "phone")) (.str [])) 40
  pure
    { client_id := norm_client_id cidv, phone := phone,
      from_date := to_date (pyGet r (pstr "from_date")) env.today,
      to_date :=
        if pyTruthy (pyGet r (pstr "to_date")) then some (to_date (pyGet r (pstr "to_date")))
        else Option.none }

/-- The login-activity loop body (dataGen.py lines 267-275); `i` is the
row's position, naming the `uuid4` token this row would draw. -/
def loginFromRow (env : Env) (i : Nat) (r : Row) : Except PyErr LoginActivity := do
  let login_id :=
    (pyStrOf (pyOr (pyGet r (pstr "log_id"))
        (.str (pstr "LG-" ++ (env.uuidLogin i).take 24)))).take 40
  let cidv ← pyItem r (pstr "client_id")
  let ip_address ← pySliceStr (pyOr (pyGet r (pstr "ip_address")) (.str (pstr "0.0.0.0"))) 64
  let ip_country ← pySliceStr (pyOr (pyGet r (pstr "ip_country")) (.str (pstr "UNK"))) 8
  let status ← pySliceStr (pyOr (pyGet r (pstr "status")) (.str (pstr "success"))) 16
  let channel ← pySliceStr (pyOr (pyGet r (pstr "channel")) (.str (pstr "web"))) 24
  pure
    { login_id := login_id, client_id := norm_client_id cidv,
      ip_address := ip_address, ip_country := ip_country, status := status,
      channel := channel, logged_in_at := to_dt (pyGet r (pstr "logged_in_at")) env.now }

/-- The transaction loop body (dataGen.py lines 283-295): note the
synthesized `tx_id` is a bare `uuid4().hex` token, with no prefix. -/
def txFromRow (env : Env) (i : Nat) (r : Row) : Except PyErr Transaction := do
  let tx_id := (pyStrOf (pyOr (pyGet r (pstr "tx_id")) (.str (env.uuidTx i)))).take 32
  let cidv ← pyItem r (pstr "client_id")
  let counterparty_id :=
    (pyStrOf (pyOr (pyGet r (pstr "counterparty_id")) (.str (pstr "CP000000")))).take 24
  let tx_type ← pySliceStr (pyOr (pyGet r (pstr "tx_type")) (.str (pstr "wire"))) 16
  let direction ← pySliceStr (pyOr (pyGet r (pstr "direction")) (.str (pstr "outgoing"))) 16
  let amount ← floatOrZero (pyGet r (pstr "amount"))
  let currency ← pySliceStr (pyOr (pyGet r (pstr "currency")) (.str (pstr "USD"))) 8
  let channel ← pySliceStr (pyOr (pyGet r (pstr "channel")) (.str (pstr "web"))) 24
  let country ← pySliceStr (pyOr (pyGet r (pstr "country")) (.str (pstr "Unknown"))) 64
  pure
    { tx_id := tx_id, client_id := norm_client_id cidv,
      counterparty_id := counterparty_id, tx_type := tx_type, direction := direction,
      amount := amount, currency := currency, channel := channel, country := country,
      timestamp := to_dt (pyGet r (pstr "timestamp")) env.now,
      typology_tags := pyOr (pyGet r (pstr "typology_tags")) (.dict []) }

/-- The case loop body (dataGen.py lines 303-310). -/
def caseFromRow (env : Env) (i : Nat) (r : Row) : Except PyErr Case := do
  let case_id := norm_case_id (env.uuidCase i) (pyGet r (pstr "case_id"))
  let cidv ← pyItem r (pstr "client_id")
  let status ← pySliceStr (pyOr (pyGet r (pstr "status")) (.str (pstr "Open"))) 20
  let title ← pySliceStr (pyOr (pyGet r (pstr "title")) (.str (pstr "Imported case"))) 180
  pure
    { case_id := case_id, client_id := norm_client_id cidv, status := status,
      opened_at := to_dt (pyGet r (pstr "opened_at")) env.now,
      closed_at :=
        if pyTruthy (pyGet r (pstr "closed_at")) then
          some (to_dt (pyGet r (pstr "closed_at")) env.now)
        else Option.none,
      title := title }

/-- The alert loop body (dataGen.py lines 318-326). -/
def alertFromRow (env : Env) (i : Nat) (r : Row) : Except PyErr Alert := do
  let alert_id :=
    (pyStrOf (pyOr (pyGet r (pstr "alert_id"))
        (.str (pstr "AL-" ++ (env.uuidAlert i).take 22)))).take 40
  let cidv ← pyItem r (pstr "client_id")
  let severity ← pySliceStr (pyOr (pyGet r (pstr "severity")) (.str (pstr "Medium"))) 16
  let status ← pySliceStr (pyOr (pyGet r (pstr "status")) (.str (pstr "Open"))) 16
  pure
    { alert_id := alert_id, client_id := norm_client_id cidv,
      case_id :=
        if pyTruthy (pyGet r (pstr "case_id")) then
          some (norm_case_id (env.uuidAlertCase i) (pyGet r (pstr "case_id")))
        else Option.none,
      severity := severity, status := status,
      created_at := to_dt (pyGet r (pstr "created_at")) env.now,
      description := pyOr (pyGet r (pstr "description")) (.str (pstr "Imported alert")) }

/-! ### Batch transformation and the load orchestrator -/

/-- One `for r in rows: objs.append(f(r))` loop: the first exception aborts
the whole batch; on success the outputs keep the input order.  The index
passed to `f` is the row's position (it names the `uuid4` tokens a row
draws). -/
def mapExc (f : Nat → Row → Except PyErr α) : Nat → List Row → Except PyErr (List α)
  | _, [] => .ok []
  | i, r :: rest => do
      let a ← f i r
      let as ← mapExc f (i + 1) rest
      pure (a :: as)

/-- The client loop over all extracted client rows, producing the
`client_objs` / `risk_objs` pairs in row order. -/
def transformClients (env : Env) (rows : List Row) :
    Except PyErr (List (Client × RiskResult)) :=
  mapExc (fun _ r => clientFromRow env r) 0 rows

/-- `client_objs` of the client loop. -/
def clientObjs (ps : List (Client × RiskResult)) : List Client := ps.map Prod.fst

/-- `risk_objs` of the client loop. -/
def riskObjs (ps : List (Client × RiskResult)) : List RiskResult := ps.map Prod.snd

/-- The address-history loop over all extracted address rows. -/
def transformAddresses (env : Env) (rows : List Row) :
    Except PyErr (List ClientAddressHistory) :=
  mapExc (fun _ r => addrFromRow env r) 0 rows

/-- The phone-history loop over all extracted phone rows. -/
def transformPhones (env : Env) (rows : List Row) :
    Except PyErr (List ClientPhoneHistory) :=
  mapExc (fun _ r => phoneFromRow env r) 0 rows

/-- The login-activity loop over all extracted ip-log rows. -/
def transformLogins (env : Env) (rows : List Row) : Except PyErr (List LoginActivity) :=
  mapExc (loginFromRow env) 0 rows

/-- The transaction loop over all extracted transaction rows. -/
def transformTxs (env : Env) (rows : List Row) : Except PyErr (List Transaction) :=
  mapExc (txFromRow env) 0 rows

/-- The case loop over all extracted case rows. -/
def transformCases (env : Env) (rows : List Row) : Except PyErr (List Case) :=
  mapExc (caseFromRow env) 0 rows

/-- The alert loop over all extracted alert rows. -/
def transformAlerts (env : Env) (rows : List Row) : Except PyErr (List Alert) :=
  mapExc (alertFromRow env) 0 rows

/-- The extracted source tables, one list of raw rows per entity class
(the `extract_*` functions are plain `SELECT`s; an unchanged source yields
the same lists). -/
structure SourceData where
  clients : List Row
  addresses : List Row
  phones : List Row
  ip_logs : List Row
  txs : List Row
  cases : List Row
  alerts : List Row

/-- The target store's contents for the eight entity classes the script
owns. -/
structure TargetStore where
  clients : List Client
  risks : List RiskResult
  addrs : List ClientAddressHistory
  phones : List ClientPhoneHistory
  logins : List LoginActivity
  txs : List Transaction
  cases : List Case
  alerts : List Alert

/-- The empty target contents: the result of the
`db.query(X).delete()` block (dataGen.py lines 180-188), which removes
every prior row of all eight entity classes. -/
def clearedStore : TargetStore :=
  { clients := [], risks := [], addrs := [], phones := [], logins := [],
    txs := [], cases := [], alerts := [] }

/-- One full migration run (dataGen.py `main`, lines 166-333): clear the
target, extract everything from the unchanged source, then transform and
load each entity class in the fixed order.  On success the committed store
holds exactly the freshly transformed batches; a raised exception aborts
the run (`tgt` is the store's prior contents, discarded by the clear). -/
def runMigration (env : Env) (src : SourceData) (_tgt : TargetStore) :
    Except PyErr TargetStore := do
  let ps ← transformClients env src.clients
  let ads ← transformAddresses env src.addresses
  let phs ← transformPhones env src.phones
  let lgs ← transformLogins env src.ip_logs
  let txs ← transformTxs env src.txs
  let css ← transformCases env src.cases
  let als ← transformAlerts env src.alerts
  pure
    { clearedStore with
      clients := clientObjs ps, risks := riskObjs ps, addrs := ads, phones := phs,
      logins := lgs, txs := txs, cases := css, alerts := als }

/-- The per-entity-class row counts of the target store (the console
summary reports the client/tx/alert/case ones). -/
def storeCounts (t : TargetStore) : List Nat :=
  [t.clients.length, t.risks.length, t.addrs.length, t.phones.length,
   t.logins.length, t.txs.length, t.cases.length, t.alerts.length]

/-- The canonical client-identifier pattern of the target schema:
`C` followed by seven or more digits. -/
def matchesCID (s : PyStr) : Bool :=
  strStarts (pstr "C") s && decide (8 ≤ s.length) && (s.drop 1).all Char.isDigit

/-! ### Inversion lemmas for the `Except` embedding -/

theorem bind_ok {α β : Type} {x : Except PyErr α} {f : α → Except PyErr β} {b : β}
    (h : (x >>= f) = .ok b) : ∃ a, x = .ok a ∧ f a = .ok b := by
  cases x with
  | ok a => exact ⟨a, rfl, h⟩
  | error e => exact Except.noConfusion h

theorem mapExc_ok_length {α : Type} {f : Nat → Row → Except PyErr α} {i : Nat}
    {rows : List Row} {out : List α} (h : mapExc f i rows = .ok out) :
    out.length = rows.length := by
  induction rows generalizing i out with
  | nil =>
      rw [mapExc] at h
      cases h
      rfl
  | cons r rest ih =>
      rw [mapExc] at h
      obtain ⟨a, _, h⟩ := bind_ok h
      obtain ⟨as, has, h⟩ := bind_ok h
      cases h
      simp [ih has]

theorem mapExc_ok_get {α : Type} {f : Nat → Row → Except PyErr α} {i : Nat}
    {rows : List Row} {out : List α} (h : mapExc f i rows = .ok out)
    (j : Nat) (hj : j < rows.length) (hj2 : j < out.length) :
    f (i + j) (rows.get ⟨j, hj⟩) = .ok (out.get ⟨j, hj2⟩) := by
  induction rows generalizing i j out with
  | nil => exact absurd hj (Nat.not_lt_zero j)
  | cons r rest ih =>
      rw [mapExc] at h
      obtain ⟨a, ha, h⟩ := bind_ok h
      obtain ⟨as, has, h⟩ := bind_ok h
      cases h
      cases j with
      | zero => simpa using ha
      | succ k =>
          have h2 := ih has (i := i + 1) k (Nat.lt_of_succ_lt_succ hj)
            (Nat.lt_of_succ_lt_succ hj2)
          rw [show i + (k + 1) = i + 1 + k from by omega]
          exact h2

theorem mapExc_error_of_mem {α : Type} {f : Nat → Row → Except PyErr α} {rows : List Row}
    {r : Row} (hmem : r ∈ rows) (hfail : ∀ i, ∃ e, f i r = .error e) :
    ∀ i, ∃ e, mapExc f i rows = .error e := by
  induction rows with
  | nil => cases hmem
  | cons r0 rest ih =>
      intro i
      rcases List.mem_cons.mp hmem with rfl | hmem2
      · obtain ⟨e, he⟩ := hfail i
        exact ⟨e, by rw [mapExc]; rw [he]; rfl⟩
      · cases hf : f i r0 with
        | error e => exact ⟨e, by rw [mapExc, hf]; rfl⟩
        | ok a =>
            obtain ⟨e, he⟩ := ih hmem2 (i + 1)
            exact ⟨e, by rw [mapExc, hf, he]; rfl⟩

/-! ### `str.strip` theory (for the normalizer claims) -/

theorem stripLeft_head {l : PyStr} {c : Char} (h : (stripLeft l).head? = some c) :
    pyIsSpace c = false := by
  induction l with
  | nil => exact Option.noConfusion h
  | cons a t ih =>
      rw [stripLeft, List.dropWhile_cons] at h
      by_cases ha : pyIsSpace a
      · rw [if_pos ha] at h
        exact ih h
      · rw [if_neg ha] at h
        cases h
        exact eq_false_of_ne_true ha

theorem stripLeft_eq_of_head {l : PyStr}
    (h : ∀ c, l.head? = some c → pyIsSpace c = false) : stripLeft l = l := by
  cases l with
  | nil => rfl
  | cons a t =>
      rw [stripLeft, List.dropWhile_cons, if_neg]
      exact fun hcon => absurd (h a rfl) (by simp [hcon])

theorem stripRight_getLast {l : PyStr} {c : Char} (h : (stripRight l).getLast? = some c) :
    pyIsSpace c = false := by
  rw [stripRight, List.getLast?_reverse] at h
  exact stripLeft_head h

theorem stripRight_eq_of_getLast {l : PyStr}
    (h : ∀ c, l.getLast? = some c → pyIsSpace c = false) : stripRight l = l := by
  rw [stripRight, stripLeft_eq_of_head, List.reverse_reverse]
  intro c hc
  rw [List.head?_reverse] at hc
  exact h c hc

theorem dropWhile_append_singleton {p : Char → Bool} {a : Char} (ha : p a = false)
    (xs : List Char) : (xs ++ [a]).dropWhile p = xs.dropWhile p ++ [a] := by
  induction xs with
  | nil => simp [List.dropWhile, ha]
  | cons x t ih =>
      by_cases hx : p x <;> simp [List.dropWhile_cons, hx, ih]

theorem stripRight_cons_of_head {a : Char} {t : PyStr} (ha : pyIsSpace a = false) :
    stripRight (a :: t) = a :: stripRight t := by
  rw [stripRight, List.reverse_cons, stripLeft, dropWhile_append_singleton ha,
    List.reverse_append]
  rfl

theorem strip_head {l : PyStr} {c : Char} (h : (strip l).head? = some c) :
    pyIsSpace c = false := by
  rw [strip] at h
  cases hsl : stripLeft l with
  | nil => rw [hsl] at h; exact Option.noConfusion h
  | cons a t =>
      have ha : pyIsSpace a = false := stripLeft_head (by rw [hsl]; rfl)
      rw [hsl, stripRight_cons_of_head ha] at h
      cases h
      exact ha

theorem strip_getLast {l : PyStr} {c : Char} (h : (strip l).getLast? = some c) :
    pyIsSpace c = false := by
  rw [strip] at h
  exact stripRight_getLast h

theorem strip_noop {l : PyStr} (h1 : ∀ c, l.head? = some c → pyIsSpace c = false)
    (h2 : ∀ c, l.getLast? = some c → pyIsSpace c = false) : strip l = l := by
  rw [strip, stripLeft_eq_of_head h1, stripRight_eq_of_getLast h2]

theorem strip_idem (l : PyStr) : strip (strip l) = strip l :=
  strip_noop (fun _ h => strip_head h) (fun _ h => strip_getLast h)

/-! ### `norm_client_id` theory -/

theorem digit_not_space {c : Char} (h : c.isDigit = true) : pyIsSpace c = false := by
  by_contra hs
  rw [Bool.not_eq_false] at hs
  have hc : c = ' ' ∨ c = '\t' ∨ c = '\n' ∨ c = '\r' ∨ c = '\x0b' ∨ c = '\x0c' := by
    simpa [pyIsSpace, or_assoc] using hs
  rcases hc with rfl | rfl | rfl | rfl | rfl | rfl <;> exact absurd h (by decide)

theorem digit_not_sign {c : Char} (h : c.isDigit = true) : (c = '+' || c = '-') = false := by
  by_contra hs
  rw [Bool.not_eq_false] at hs
  have hc : c = '+' ∨ c = '-' := by simpa using hs
  rcases hc with rfl | rfl <;> exact absurd h (by decide)

theorem digit_ne_C {c : Char} (h : c.isDigit = true) : c ≠ 'C' := by
  rintro rfl
  exact absurd h (by decide)

theorem getLast?_of_mem_getLast? {l : PyStr} {c : Char} (h : l.getLast? = some c) : c ∈ l := by
  obtain ⟨hne, rfl⟩ := List.mem_getLast?_eq_getLast (show c ∈ l.getLast? from h)
  exact List.getLast_mem hne

theorem zfill_length (w : Nat) (s : PyStr) : (zfill w s).length = max w s.length := by
  cases s with
  | nil => simp [zfill]
  | cons c rest =>
      rw [zfill]
      by_cases hc : (c = '+' || c = '-') = true
      · rw [if_pos hc]
        simp only [List.length_cons, List.length_append, List.length_replicate]
        omega
      · rw [if_neg hc]
        simp only [List.length_cons, List.length_append, List.length_replicate]
        omega

theorem zfill_all_digits {s : PyStr} (h : s.all Char.isDigit = true) :
    (zfill 7 s).all Char.isDigit = true := by
  cases s with
  | nil => decide
  | cons c rest =>
      have hc : c.isDigit = true := by
        have := List.all_eq_true.mp h c (by simp)
        simpa using this
      rw [zfill, if_neg (by simp [digit_not_sign hc])]
      rw [List.all_append]
      refine (Bool.and_eq_true _ _).mpr ⟨?_, h⟩
      apply List.all_eq_true.mpr
      intro x hx
      rw [List.eq_of_mem_replicate hx]
      decide

theorem getLast?_replicate_pos {n : Nat} (hn : 0 < n) :
    (List.replicate n '0').getLast? = some '0' := by
  induction n with
  | zero => exact absurd hn (by omega)
  | succ m ih =>
      cases m with
      | zero => rfl
      | succ k =>
          rw [List.replicate_succ]
          rw [show ('0' :: List.replicate (k + 1) '0' : PyStr) = ['0'] ++ List.replicate (k + 1) '0' from rfl]
          rw [List.getLast?_append_of_ne_nil _ (by simp)]
          exact ih (by omega)

theorem getLast?_cons_of_ne_nil {a : Char} {l : PyStr} (hl : l ≠ []) :
    (a :: l).getLast? = l.getLast? := by
  rw [show (a :: l : PyStr) = [a] ++ l from rfl]
  exact List.getLast?_append_of_ne_nil _ hl

/-- The last character of `zfill 7 (strip raw)` is never whitespace. -/
theorem zfill_strip_getLast {raw : PyStr} {c : Char}
    (h : (zfill 7 (strip raw)).getLast? = some c) : pyIsSpace c = false := by
  have hlaststrip : ∀ d, (strip raw).getLast? = some d → pyIsSpace d = false :=
    fun d hd => strip_getLast hd
  cases hs : strip raw with
  | nil =>
      rw [hs] at h
      rw [show (zfill 7 ([] : PyStr)).getLast? = some '0' from by decide] at h
      cases h
      decide
  | cons c0 rest =>
      rw [hs, zfill] at h
      by_cases hc0 : (c0 = '+' || c0 = '-') = true
      · rw [if_pos hc0] at h
        cases rest with
        | nil =>
            rw [getLast?_cons_of_ne_nil (by simp), List.append_nil,
              getLast?_replicate_pos (by simp)] at h
            cases h
            decide
        | cons r1 rest2 =>
            rw [getLast?_cons_of_ne_nil (by simp),
              List.getLast?_append_of_ne_nil _ (by simp)] at h
            apply hlaststrip c
            rw [hs, getLast?_cons_of_ne_nil (by simp)]
            exact h
      · rw [if_neg hc0] at h
        rw [List.getLast?_append_of_ne_nil _ (by simp)] at h
        exact hlaststrip c (hs ▸ h)

/-- `normCID` output is already stripped. -/
theorem normCID_strip_self (raw : PyStr) : strip (normCID raw) = normCID raw := by
  cases h : strStarts (pstr "C") (strip raw) with
  | true =>
      simp only [normCID, h, if_true]
      exact strip_idem raw
  | false =>
      simp only [normCID, h, Bool.false_eq_true, if_false]
      apply strip_noop
      · intro c hc
        cases hc
        decide
      · intro c hc
        have hz : zfill 7 (strip raw) ≠ [] := by
          have hlen := zfill_length 7 (strip raw)
          intro hnil
          rw [hnil] at hlen
          simp at hlen
          omega
        rw [show (pstr "C" ++ zfill 7 (strip raw) : PyStr) = 'C' :: zfill 7 (strip raw) from rfl,
          getLast?_cons_of_ne_nil hz] at hc
        exact zfill_strip_getLast hc

/-- `normCID` output starts with `C`. -/
theorem normCID_startsC (raw : PyStr) : strStarts (pstr "C") (normCID raw) = true := by
  cases h : strStarts (pstr "C") (strip raw) with
  | true => simp only [normCID, h, if_true]
  | false =>
      simp only [normCID, h, Bool.false_eq_true, if_false]
      rfl

/-- A stripped string starting with `C` is a `normCID` fixed point. -/
theorem normCID_fixed {s : PyStr} (h1 : strip s = s) (h2 : strStarts (pstr "C") s = true) :
    normCID s = s := by
  simp only [normCID, h1, h2, if_true]

theorem normCID_idem (raw : PyStr) : normCID (normCID raw) = normCID raw :=
  normCID_fixed (normCID_strip_self raw) (normCID_startsC raw)

theorem normCID_digits {raw : PyStr} (h : (strip raw).all Char.isDigit = true) :
    matchesCID (normCID raw) = true := by
  have hstart : strStarts (pstr "C") (strip raw) = false := by
    cases hs : strip raw with
    | nil => rfl
    | cons c t =>
        have hc : c.isDigit = true := by
          have hmem := List.all_eq_true.mp (hs ▸ h) c (by simp)
          simpa using hmem
        apply beq_eq_false_iff_ne.mpr
        intro heq
        rw [show (pstr "C" : PyStr) = ['C'] from rfl] at heq
        have hcC : c = 'C' := by
          have h0 := congrArg List.head? heq
          simpa using h0
        exact digit_ne_C hc hcC
  simp only [normCID, hstart, Bool.false_eq_true, if_false]
  rw [matchesCID]
  have hlen : (zfill 7 (strip raw)).length = max 7 (strip raw).length := zfill_length 7 _
  refine (Bool.and_eq_true _ _).mpr ⟨(Bool.and_eq_true _ _).mpr ⟨rfl, ?_⟩, ?_⟩
  · apply decide_eq_true
    simp only [List.length_append, List.length_cons]
    simp [pstr, hlen]
    omega
  · rw [show (pstr "C" ++ zfill 7 (strip raw) : PyStr) = 'C' :: zfill 7 (strip raw) from rfl]
    exact zfill_all_digits h

theorem clientFromRow_ok {env : Env} {r : Row} {c : Client} {rr : RiskResult}
    (h : clientFromRow env r = .ok (c, rr)) :
    rr.client_id = c.client_id ∧
    rr.risk_score = (if strStarts (pstr "high") (lowerStr c.risk_rating) then (75 : Rat) else 35) ∧
    rr.last_updated = env.now ∧
    (∃ cidv, pyItem r (pstr "client_id") = .ok cidv ∧ c.client_id = norm_client_id cidv) := by
  rw [clientFromRow] at h
  obtain ⟨cidv, h1, h⟩ := bind_ok h
  obtain ⟨fn, h2, h⟩ := bind_ok h
  obtain ⟨g, h3, h⟩ := bind_ok h
  obtain ⟨co, h4, h⟩ := bind_ok h
  obtain ⟨ci, h5, h⟩ := bind_ok h
  obtain ⟨sg, h6, h⟩ := bind_ok h
  obtain ⟨oc, h7, h⟩ := bind_ok h
  obtain ⟨ai, h8, h⟩ := bind_ok h
  obtain ⟨pe, h9, h⟩ := bind_ok h
  obtain ⟨sa, h10, h⟩ := bind_ok h
  obtain ⟨rrt, h11, h⟩ := bind_ok h
  have hp := Except.ok.inj h
  injection hp with hpc hpr
  subst hpc
  subst hpr
  exact ⟨rfl, rfl, rfl, cidv, h1, rfl⟩

theorem addrFromRow_ok {env : Env} {r : Row} {rec : ClientAddressHistory}
    (h : addrFromRow env r = .ok rec) :
    rec.to_date = (if pyTruthy (pyGet r (pstr "to_date")) then
        some (to_date (pyGet r (pstr "to_date"))) else Option.none) ∧
    rec.from_date = to_date (pyGet r (pstr "from_date")) env.today := by
  rw [addrFromRow] at h
  obtain ⟨cidv, h1, h⟩ := bind_ok h
  obtain ⟨al, h2, h⟩ := bind_ok h
  obtain ⟨ci, h3, h⟩ := bind_ok h
  obtain ⟨co, h4, h⟩ := bind_ok h
  cases Except.ok.inj h
  exact ⟨rfl, rfl⟩

theorem phoneFromRow_ok {env : Env} {r : Row} {rec : ClientPhoneHistory}
    (h : phoneFromRow env r = .ok rec) :
    rec.to_date = (if pyTruthy (pyGet r (pstr "to_date")) then
        some (to_date (pyGet r (pstr "to_date"))) else Option.none) ∧
    rec.from_date = to_date (pyGet r (pstr "from_date")) env.today := by
  rw [phoneFromRow] at h
  obtain ⟨cidv, h1, h⟩ := bind_ok h
  obtain ⟨ph, h2, h⟩ := bind_ok h
  cases Except.ok.inj h
  exact ⟨rfl, rfl⟩

theorem loginFromRow_ok {env : Env} {i : Nat} {r : Row} {rec : LoginActivity}
    (h : loginFromRow env i r = .ok rec) :
    rec.login_id = (pyStrOf (pyOr (pyGet r (pstr "log_id"))
        (.str (pstr "LG-" ++ (env.uuidLogin i).take 24)))).take 40 := by
  rw [loginFromRow] at h
  obtain ⟨cidv, h1, h⟩ := bind_ok h
  obtain ⟨ia, h2, h⟩ := bind_ok h
  obtain ⟨ic, h3, h⟩ := bind_ok h
  obtain ⟨st, h4, h⟩ := bind_ok h
  obtain ⟨ch, h5, h⟩ := bind_ok h
  cases Except.ok.inj h
  rfl

theorem txFromRow_ok {env : Env} {i : Nat} {r : Row} {rec : Transaction}
    (h : txFromRow env i r = .ok rec) :
    rec.tx_id = (pyStrOf (pyOr (pyGet r (pstr "tx_id")) (.str (env.uuidTx i)))).take 32 := by
  rw [txFromRow] at h
  obtain ⟨cidv, h1, h⟩ := bind_ok h
  obtain ⟨tt, h2, h⟩ := bind_ok h
  obtain ⟨di, h3, h⟩ := bind_ok h
  obtain ⟨am, h4, h⟩ := bind_ok h
  obtain ⟨cu, h5, h⟩ := bind_ok h
  obtain ⟨ch, h6, h⟩ := bind_ok h
  obtain ⟨co, h7, h⟩ := bind_ok h
  cases Except.ok.inj h
  rfl

theorem caseFromRow_ok {env : Env} {i : Nat} {r : Row} {rec : Case}
    (h : caseFromRow env i r = .ok rec) :
    rec.case_id = norm_case_id (env.uuidCase i) (pyGet r (pstr "case_id")) ∧
    rec.closed_at = (if pyTruthy (pyGet r (pstr "closed_at")) then
        some (to_dt (pyGet r (pstr "closed_at")) env.now) else Option.none) := by
  rw [caseFromRow] at h
  obtain ⟨cidv, h1, h⟩ := bind_ok h
  obtain ⟨st, h2, h⟩ := bind_ok h
  obtain ⟨ti, h3, h⟩ := bind_ok h
  cases Except.ok.inj h
  exact ⟨rfl, rfl⟩

theorem alertFromRow_ok {env : Env} {i : Nat} {r : Row} {a : Alert}
    (h : alertFromRow env i r = .ok a) :
    a.alert_id = (pyStrOf (pyOr (pyGet r (pstr "alert_id"))
        (.str (pstr "AL-" ++ (env.uuidAlert i).take 22)))).take 40 ∧
    a.case_id = (if pyTruthy (pyGet r (pstr "case_id")) then
        some (norm_case_id (env.uuidAlertCase i) (pyGet r (pstr "case_id"))) else Option.none) := by
  rw [alertFromRow] at h
  obtain ⟨cidv, h1, h⟩ := bind_ok h
  obtain ⟨sv, h2, h⟩ := bind_ok h
  obtain ⟨st, h3, h⟩ := bind_ok h
  cases Except.ok.inj h
  exact ⟨rfl, rfl⟩

theorem clientFromRow_missing_cid {env : Env} {r : Row}
    (h : List.lookup (pstr "client_id") r = Option.none) :
    clientFromRow env r = .error .keyError := by
  rw [clientFromRow, show pyItem r (pstr "client_id") = .error .keyError from by rw [pyItem, h]]
  rfl

theorem alert_id_synth {env : Env} {i : Nat} {r : Row} {a : Alert}
    (h : alertFromRow env i r = .ok a)
    (habs : List.lookup (pstr "alert_id") r = Option.none) :
    a.alert_id = pstr "AL-" ++ (env.uuidAlert i).take 22 := by
  have h1 := (alertFromRow_ok h).1
  rw [pyGet, habs] at h1
  simp only [Option.getD_none] at h1
  rw [show pyOr PyVal.none (.str (pstr "AL-" ++ (env.uuidAlert i).take 22)) =
      .str (pstr "AL-" ++ (env.uuidAlert i).take 22) from rfl] at h1
  rw [show pyStrOf (.str (pstr "AL-" ++ (env.uuidAlert i).take 22)) =
      pstr "AL-" ++ (env.uuidAlert i).take 22 from rfl] at h1
  rw [List.take_of_length_le] at h1
  · exact h1
  · simp only [List.length_append, List.length_take]
    have : (pstr "AL-").length = 3 := rfl
    omega

theorem strStarts_append (p t : PyStr) : strStarts p (p ++ t) = true := by
  rw [strStarts, List.take_left]
  exact beq_self_eq_true p

/-! ### Concrete run data for the closed instances below -/

/-- A concrete run environment: fixed clock values and concrete hex-token
streams (`uuidAlert` yields distinct tokens per row, as `uuid4` does). -/
def envW : Env :=
  { today := ⟨2026, 1, 2⟩,
    now := ⟨2026, 1, 2, 3, 4, 5, 0, Option.none⟩,
    uuidLogin := fun _ => pstr "0123456789abcdef0123456789abcdef",
    uuidTx := fun _ => pstr "0123456789abcdef0123456789abcdef",
    uuidCase := fun _ => pstr "0123456789abcdef0123456789abcdef",
    uuidAlert := fun i =>
      if i = 0 then pstr "aaaaaaaaaaaaaaaaaaaaaaaaaaaaaaaa"
      else pstr "bbbbbbbbbbbbbbbbbbbbbbbbbbbbbbbb",
    uuidAlertCase := fun _ => pstr "0123456789abcdef0123456789abcdef" }

/-- A client row with a purely numeric short id and nothing else. -/
def row42 : Row := [(pstr "client_id", PyVal.str (pstr "42"))]

/-- A client row with a 200-character name. -/
def rowLong : Row :=
  [(pstr "client_id", PyVal.str (pstr "42")),
   (pstr "full_name", PyVal.str (List.replicate 200 'a'))]

/-- A row whose `annual_income` holds a non-numeric string. -/
def rowBadIncome : Row :=
  [(pstr "client_id", PyVal.str (pstr "1")),
   (pstr "annual_income", PyVal.str (pstr "abc"))]

/-- A row with `client_id` present and several malformed-but-degradable
fields. -/
def rowDegrade : Row :=
  [(pstr "client_id", PyVal.str (pstr "x")),
   (pstr "full_name", PyVal.none),
   (pstr "dob", PyVal.str (pstr "junk")),
   (pstr "annual_income", PyVal.str [])]

/-- A child row carrying only its client linkage. -/
def rowAl : Row := [(pstr "client_id", PyVal.str (pstr "1"))]

/-! ### C1 -/

/-- C1 (counterexample): the claim says every field coercer is total — in
particular that numeric coercion never raises on any input in
{null, wrong-type string, valid value}.  On the wrong-type string
`"abc"` the numeric coercion `float(r.get("annual_income") or 0)`
raises `ValueError` (dataGen.py line 213), so the claim is false. -/
theorem C1_counterexample :
    floatOrZero (PyVal.str (pstr "abc")) = .error .valueError := rfl

/-- C1 (amended): the date and timestamp coercers are total — `None`,
`date`/`datetime` instances and parse failures all yield a well-typed
value and never raise — and numeric coercion treats null/absent (and any
falsy value) as zero and converts numbers, but raises `ValueError` on a
truthy non-numeric string. -/
theorem C1_amended_thm :
    (∀ d, to_date PyVal.none d = .d d) ∧
    (∀ x d, to_date (PyVal.date x) d = .d x) ∧
    (∀ t d, to_date (PyVal.dt t) d = .t t) ∧
    (∀ s d e, fromisoformat s = .error e → to_date (PyVal.str s) d = .d d) ∧
    (∀ s t d, fromisoformat s = .ok t → to_date (PyVal.str s) d = .d (dtDate t)) ∧
    (∀ d, to_dt PyVal.none d = d) ∧
    (∀ t d, to_dt (PyVal.dt t) d = t) ∧
    (∀ s d e, fromisoformat (replaceZ s) = .error e → to_dt (PyVal.str s) d = d) ∧
    floatOrZero PyVal.none = .ok 0 ∧
    (∀ n : Int, floatOrZero (PyVal.int n) = .ok (n : Rat)) ∧
    (∃ s, floatOrZero (PyVal.str s) = .error .valueError) := by
  refine ⟨fun d => rfl, fun x d => rfl, fun t d => rfl, ?_, ?_, fun d => rfl,
    fun t d => rfl, ?_, rfl, ?_, ⟨pstr "abc", rfl⟩⟩
  · intro s d e h
    show (match fromisoformat s with
      | Except.ok t => DateV.d (dtDate t)
      | Except.error _ => DateV.d d) = DateV.d d
    rw [h]
  · intro s t d h
    show (match fromisoformat s with
      | Except.ok t => DateV.d (dtDate t)
      | Except.error _ => DateV.d d) = DateV.d (dtDate t)
    rw [h]
  · intro s d e h
    show (match fromisoformat (replaceZ s) with
      | Except.ok t => t
      | Except.error _ => d) = d
    rw [h]
  · intro n
    by_cases hn : n = 0
    · subst hn; rfl
    · rw [floatOrZero, pyOr, pyTruthy]
      rw [if_pos (by simpa using hn)]
      rfl

/-- C1 (witness): the amended theorem applied at `"garbage"` / `"junk"`. -/
theorem C1_amended_thm_witness :
    fromisoformat (pstr "garbage") = .error .valueError ∧
    to_date (PyVal.str (pstr "garbage")) ⟨1990, 1, 1⟩ = .d ⟨1990, 1, 1⟩ ∧
    fromisoformat (replaceZ (pstr "junk")) = .error .valueError ∧
    to_dt (PyVal.str (pstr "junk")) envW.now = envW.now :=
  ⟨rfl, C1_amended_thm.2.2.2.1 (pstr "garbage") ⟨1990, 1, 1⟩ .valueError rfl,
   rfl, C1_amended_thm.2.2.2.2.2.2.2.1 (pstr "junk") envW.now .valueError rfl⟩

theorem mem_of_head? {l : PyStr} {c : Char} (h : l.head? = some c) : c ∈ l := by
  cases l with
  | nil => exact Option.noConfusion h
  | cons a t =>
      cases h
      exact List.mem_cons_self _ _

theorem digits_strip_self {s : PyStr} (h : s.all Char.isDigit = true) : strip s = s := by
  apply strip_noop
  · intro c hc
    have hd : c.isDigit = true := by
      have := List.all_eq_true.mp h c (by simpa using mem_of_head? hc)
      simpa using this
    exact digit_not_space hd
  · intro c hc
    have hd : c.isDigit = true := by
      have := List.all_eq_true.mp h c (by simpa using getLast?_of_mem_getLast? hc)
      simpa using this
    exact digit_not_space hd

theorem zfill_digits_eq {s : PyStr} (h : s.all Char.isDigit = true) :
    zfill 7 s = List.replicate (7 - s.length) '0' ++ s := by
  cases s with
  | nil => simp [zfill]
  | cons c t =>
      have hc : c.isDigit = true := by
        have := List.all_eq_true.mp h c (by simp)
        simpa using this
      rw [zfill, if_neg (by simp [digit_not_sign hc])]

/-! ### C2 -/

/-- C2 (counterexample): the claim says the only input making a
transformer fail is a row entirely lacking `client_id`.  This row has
`client_id` present, yet the client transformer raises `ValueError` on
its non-numeric `annual_income` (dataGen.py line 213). -/
theorem C2_counterexample :
    clientFromRow envW rowBadIncome = .error .valueError := rfl

/-- C2 (amended): a transformer degrades malformed values to defaults for
the nullable/string fields, and a row lacking `client_id` raises
`KeyError`; but a truthy non-numeric string in a numeric field also makes
the transformer raise, and any per-row exception aborts the whole entity
batch. -/
theorem C2_amended_thm :
    (∀ (env : Env) (r : Row), List.lookup (pstr "client_id") r = Option.none →
       clientFromRow env r = .error .keyError) ∧
    (∀ (env : Env) (rows : List Row) (r : Row) (e : PyErr), r ∈ rows →
       clientFromRow env r = .error e →
       ∃ e2, transformClients env rows = .error e2) ∧
    (∃ c rr, clientFromRow envW rowDegrade = .ok (c, rr)) ∧
    clientFromRow envW rowBadIncome = .error .valueError := by
  refine ⟨?_, ?_, ⟨_, _, rfl⟩, rfl⟩
  · intro env r h
    exact clientFromRow_missing_cid h
  · intro env rows r e hmem hfail
    obtain ⟨e2, h2⟩ :=
      mapExc_error_of_mem (f := fun _ r => clientFromRow env r) hmem
        (fun _ => ⟨e, hfail⟩) 0
    exact ⟨e2, h2⟩

/-- C2 (witness): the amended theorem applied to the empty row and to a
one-row batch whose row has a bad `annual_income`. -/
theorem C2_amended_thm_witness :
    clientFromRow envW [] = .error .keyError ∧
    (∃ e2, transformClients envW [rowBadIncome] = .error e2) :=
  ⟨C2_amended_thm.1 envW [] rfl,
   C2_amended_thm.2.1 envW [rowBadIncome] rowBadIncome .valueError (by simp) rfl⟩

/-! ### C3 -/

/-- C3 (counterexample): the claim says every normalized client id
matches `C` + 7-or-more digits; on the non-numeric source value `"x5"`,
`norm_client_id` returns `"C00000x5"`, which does not. -/
theorem C3_counterexample :
    matchesCID (norm_client_id (PyVal.str (pstr "x5"))) = false := rfl

/-- C3 (amended): when the stripped string form of the source value is
purely numeric, the normalized client id matches `C` followed by 7+
digits, and (for a digit-string value) equals `C` plus the value
zero-filled to width 7. -/
theorem C3_amended_thm :
    (∀ v : PyVal, (strip (pyStrOf v)).all Char.isDigit = true →
       matchesCID (norm_client_id v) = true) ∧
    (∀ s : PyStr, s.all Char.isDigit = true →
       norm_client_id (PyVal.str s) = pstr "C" ++ (List.replicate (7 - s.length) '0' ++ s)) := by
  constructor
  · intro v h
    exact normCID_digits h
  · intro s h
    have hstrip : strip s = s := digits_strip_self h
    have hstart : strStarts (pstr "C") s = false := by
      cases s with
      | nil => rfl
      | cons c t =>
          have hc : c.isDigit = true := by
            have hmem := List.all_eq_true.mp h c (by simp)
            simpa using hmem
          apply beq_eq_false_iff_ne.mpr
          rw [show (pstr "C" : PyStr).length = 1 from rfl]
          intro heq
          have hcC : c = 'C' := by
            have h0 := congrArg List.head? heq
            simpa [show (pstr "C" : PyStr) = ['C'] from rfl] using h0
          exact digit_ne_C hc hcC
    show normCID (pyStrOf (PyVal.str s)) = _
    rw [show pyStrOf (PyVal.str s) = s from rfl]
    simp only [normCID, hstrip, hstart, Bool.false_eq_true, if_false]
    congr 1
    exact zfill_digits_eq h

/-- C3 (witness): the amended theorem applied at the source value
`"42"`. -/
theorem C3_amended_thm_witness :
    (strip (pyStrOf (PyVal.str (pstr "42")))).all Char.isDigit = true ∧
    matchesCID (norm_client_id (PyVal.str (pstr "42"))) = true :=
  ⟨rfl, C3_amended_thm.1 (PyVal.str (pstr "42")) rfl⟩

/-! ### C4 -/

/-- C4 (confirmed): client-id normalization is deterministic (equal inputs
give equal outputs), returns already-canonical identifiers unchanged, and
is idempotent under re-application. -/
theorem C4_thm :
    (∀ v w : PyVal, v = w → norm_client_id v = norm_client_id w) ∧
    (∀ s : PyStr, matchesCID s = true → norm_client_id (PyVal.str s) = s) ∧
    (∀ v : PyVal, norm_client_id (PyVal.str (norm_client_id v)) = norm_client_id v) := by
  refine ⟨fun v w h => congrArg norm_client_id h, ?_, ?_⟩
  · intro s h
    rw [matchesCID] at h
    obtain ⟨h12, h3⟩ := (Bool.and_eq_true _ _).mp h
    obtain ⟨h1, h2⟩ := (Bool.and_eq_true _ _).mp h12
    have hlen : 8 ≤ s.length := of_decide_eq_true h2
    obtain ⟨t, rfl⟩ : ∃ t, s = 'C' :: t := by
      cases s with
      | nil => simp at hlen
      | cons c t =>
          refine ⟨t, ?_⟩
          have heq : (c :: t : PyStr).take (pstr "C").length = pstr "C" := eq_of_beq h1
          have hcC : c = 'C' := by
            have h0 := congrArg List.head? heq
            simpa [show (pstr "C" : PyStr) = ['C'] from rfl] using h0
          rw [hcC]
    show normCID (pyStrOf (PyVal.str ('C' :: t))) = _
    rw [show pyStrOf (PyVal.str ('C' :: t)) = 'C' :: t from rfl]
    apply normCID_fixed
    · apply strip_noop
      · intro c hc
        cases hc
        decide
      · intro c hc
        have htne : t ≠ [] := by
          intro hnil
          rw [hnil] at hlen
          simp at hlen
        rw [getLast?_cons_of_ne_nil htne] at hc
        have hmem : c ∈ t := getLast?_of_mem_getLast? hc
        have hdig : c.isDigit = true := by
          have := List.all_eq_true.mp h3 c (by simpa using hmem)
          simpa using this
        exact digit_not_space hdig
    · exact h1
  · intro v
    show normCID (pyStrOf (PyVal.str (normCID (pyStrOf v)))) = normCID (pyStrOf v)
    rw [show pyStrOf (PyVal.str (normCID (pyStrOf v))) = normCID (pyStrOf v) from rfl]
    exact normCID_idem (pyStrOf v)

/-- C4 (witness): the canonical identifier `"C0000042"` is returned
unchanged. -/
theorem C4_thm_witness :
    matchesCID (pstr "C0000042") = true ∧
    norm_client_id (PyVal.str (pstr "C0000042")) = pstr "C0000042" :=
  ⟨rfl, C4_thm.2.1 (pstr "C0000042") rfl⟩

/-! ### C5 -/

/-- C5 (confirmed): the client loop produces exactly one risk result per
transformed client, created alongside it at the same position, carrying
the client's normalized `client_id`, with `risk_score` 75.0 when the
defaulted-and-truncated `risk_rating` starts with `"high"`
case-insensitively and 35.0 otherwise. -/
theorem C5_thm : ∀ (env : Env) (rows : List Row) (ps : List (Client × RiskResult)),
    transformClients env rows = .ok ps →
    (riskObjs ps).length = (clientObjs ps).length ∧
    (∀ j (hj : j < (clientObjs ps).length) (hj2 : j < (riskObjs ps).length),
      ((riskObjs ps).get ⟨j, hj2⟩).client_id = ((clientObjs ps).get ⟨j, hj⟩).client_id ∧
      ((riskObjs ps).get ⟨j, hj2⟩).risk_score =
        (if strStarts (pstr "high") (lowerStr ((clientObjs ps).get ⟨j, hj⟩).risk_rating)
         then (75 : Rat) else 35)) := by
  intro env rows ps h
  have hlen : ps.length = rows.length := mapExc_ok_length h
  constructor
  · simp [riskObjs, clientObjs]
  · intro j hj hj2
    have hjp : j < ps.length := by simpa [clientObjs] using hj
    have hjr : j < rows.length := hlen ▸ hjp
    have hg := mapExc_ok_get h j hjr hjp
    have hck := clientFromRow_ok hg
    have e1 : (riskObjs ps).get ⟨j, hj2⟩ = (ps.get ⟨j, hjp⟩).2 := List.get_map Prod.snd
    have e2 : (clientObjs ps).get ⟨j, hj⟩ = (ps.get ⟨j, hjp⟩).1 := List.get_map Prod.fst
    rw [e1, e2]
    exact ⟨hck.1, hck.2.1⟩

/-- A client row whose rating is in the high band. -/
def rowHigh : Row :=
  [(pstr "client_id", PyVal.str (pstr "7")),
   (pstr "risk_rating", PyVal.str (pstr "High Risk"))]

/-- The client-loop output on the one-row source `[rowHigh]`. -/
def psW : List (Client × RiskResult) :=
  match transformClients envW [rowHigh] with
  | .ok ps => ps
  | .error _ => []

/-- C5 (witness): the theorem applied to the concrete one-row batch. -/
theorem C5_thm_witness :
    transformClients envW [rowHigh] = .ok psW ∧
    (riskObjs psW).length = (clientObjs psW).length :=
  ⟨rfl, (C5_thm envW [rowHigh] psW rfl).1⟩

/-! ### C6 -/

/-- C6 (confirmed): transforming any collection of alert rows all lacking
`alert_id` — with the `uuid4` token stream modelled as yielding distinct
(truncated) tokens within the run — produces pairwise-distinct alert
identifiers, each prefixed `"AL-"`. -/
theorem C6_thm : ∀ (env : Env) (rows : List Row) (alerts : List Alert),
    (∀ r ∈ rows, List.lookup (pstr "alert_id") r = Option.none) →
    (∀ i j, i < rows.length → j < rows.length →
      (env.uuidAlert i).take 22 = (env.uuidAlert j).take 22 → i = j) →
    transformAlerts env rows = .ok alerts →
    (∀ i j (hi : i < alerts.length) (hj : j < alerts.length),
      (alerts.get ⟨i, hi⟩).alert_id = (alerts.get ⟨j, hj⟩).alert_id → i = j) ∧
    (∀ a ∈ alerts, strStarts (pstr "AL-") a.alert_id = true) := by
  intro env rows alerts habs hinj h
  have hlen : alerts.length = rows.length := mapExc_ok_length h
  have hid : ∀ (i : Nat) (hi : i < alerts.length),
      (alerts.get ⟨i, hi⟩).alert_id = pstr "AL-" ++ (env.uuidAlert i).take 22 := by
    intro i hi
    have hir : i < rows.length := hlen ▸ hi
    have hg := mapExc_ok_get h i hir hi
    rw [Nat.zero_add] at hg
    exact alert_id_synth hg (habs _ (List.get_mem rows _ _))
  constructor
  · intro i j hi hj heq
    rw [hid i hi, hid j hj] at heq
    exact hinj i j (hlen ▸ hi) (hlen ▸ hj) (List.append_cancel_left heq)
  · intro a ha
    obtain ⟨i, hi, rfl⟩ := List.mem_iff_get.mp ha
    rw [hid i.1 i.2]
    exact strStarts_append _ _

/-- The alert-loop output on two alert rows lacking `alert_id`. -/
def alertsW : List Alert :=
  match transformAlerts envW [rowAl, rowAl] with
  | .ok l => l
  | .error _ => []

/-- C6 (witness): the theorem applied to a concrete two-row batch whose
rows lack `alert_id`, with `envW`'s distinct token stream. -/
theorem C6_thm_witness :
    transformAlerts envW [rowAl, rowAl] = .ok alertsW ∧
    (∀ a ∈ alertsW, strStarts (pstr "AL-") a.alert_id = true) := by
  refine ⟨rfl, ?_⟩
  refine (C6_thm envW [rowAl, rowAl] alertsW ?_ ?_ rfl).2
  · intro r hr
    rcases List.mem_cons.mp hr with rfl | hr2
    · rfl
    rcases List.mem_cons.mp hr2 with rfl | hr3
    · rfl
    cases hr3
  · intro i j hi hj heq
    have hi2 : i < 2 := by simpa using hi
    have hj2 : j < 2 := by simpa using hj
    interval_cases i <;> interval_cases j <;>
      first
        | rfl
        | exact absurd heq (by decide)

theorem pyOr_of_falsy {a b : PyVal} (h : pyTruthy a = false) : pyOr a b = b := by
  simp [pyOr, h]

theorem pyOr_of_truthy {a b : PyVal} (h : pyTruthy a = true) : pyOr a b = a := by
  simp [pyOr, h]

/-! ### C7 -/

/-- C7 (counterexample): the claim says login, transaction and alert
identifiers are each synthesized with their entity's own distinguishing
prefix when absent.  The transaction loop synthesizes a bare
`uuid4().hex` token with no prefix (dataGen.py line 284): on a row
lacking `tx_id` the produced identifier equals the raw token, which is
exactly what a legitimate present `tx_id` of that value also maps to, so
no prefix distinguishes synthesized transaction identifiers. -/
theorem C7_counterexample :
    (txFromRow envW 0 rowAl).map Transaction.tx_id =
      .ok (pstr "0123456789abcdef0123456789abcdef") ∧
    (txFromRow envW 0 [(pstr "tx_id", PyVal.str (pstr "0123456789abcdef0123456789abcdef")),
        (pstr "client_id", PyVal.str (pstr "1"))]).map Transaction.tx_id =
      .ok (pstr "0123456789abcdef0123456789abcdef") ∧
    strStarts (pstr "TX-") (pstr "0123456789abcdef0123456789abcdef") = false :=
  ⟨rfl, rfl, rfl⟩

/-- C7 (amended): when the raw identifier is absent or falsy, the login
and alert transformers synthesize `LG-`/`AL-`-prefixed identifiers while
the transaction transformer uses the bare `uuid4` token truncated to 32;
when the raw identifier is truthy, its `str()` value is used, truncated
to the target maximum length (40, 32, 40 respectively). -/
theorem C7_amended_thm :
    (∀ (env : Env) (i : Nat) (r : Row) (rec : LoginActivity), loginFromRow env i r = .ok rec →
      (pyTruthy (pyGet r (pstr "log_id")) = false →
        rec.login_id = pstr "LG-" ++ (env.uuidLogin i).take 24) ∧
      (pyTruthy (pyGet r (pstr "log_id")) = true →
        rec.login_id = (pyStrOf (pyGet r (pstr "log_id"))).take 40)) ∧
    (∀ (env : Env) (i : Nat) (r : Row) (rec : Transaction), txFromRow env i r = .ok rec →
      (pyTruthy (pyGet r (pstr "tx_id")) = false → rec.tx_id = (env.uuidTx i).take 32) ∧
      (pyTruthy (pyGet r (pstr "tx_id")) = true →
        rec.tx_id = (pyStrOf (pyGet r (pstr "tx_id"))).take 32)) ∧
    (∀ (env : Env) (i : Nat) (r : Row) (a : Alert), alertFromRow env i r = .ok a →
      (pyTruthy (pyGet r (pstr "alert_id")) = false →
        a.alert_id = pstr "AL-" ++ (env.uuidAlert i).take 22) ∧
      (pyTruthy (pyGet r (pstr "alert_id")) = true →
        a.alert_id = (pyStrOf (pyGet r (pstr "alert_id"))).take 40)) := by
  refine ⟨?_, ?_, ?_⟩
  · intro env i r rec h
    have h1 := loginFromRow_ok h
    constructor
    · intro hf
      rw [pyOr_of_falsy hf] at h1
      rw [show pyStrOf (PyVal.str (pstr "LG-" ++ (env.uuidLogin i).take 24)) =
          pstr "LG-" ++ (env.uuidLogin i).take 24 from rfl] at h1
      rw [List.take_of_length_le] at h1
      · exact h1
      · simp only [List.length_append, List.length_take]
        have h3 : (pstr "LG-").length = 3 := rfl
        omega
    · intro ht
      rw [pyOr_of_truthy ht] at h1
      exact h1
  · intro env i r rec h
    have h1 := txFromRow_ok h
    constructor
    · intro hf
      rw [pyOr_of_falsy hf] at h1
      exact h1
    · intro ht
      rw [pyOr_of_truthy ht] at h1
      exact h1
  · intro env i r a h
    have h1 := (alertFromRow_ok h).1
    constructor
    · intro hf
      rw [pyOr_of_falsy hf] at h1
      rw [show pyStrOf (PyVal.str (pstr "AL-" ++ (env.uuidAlert i).take 22)) =
          pstr "AL-" ++ (env.uuidAlert i).take 22 from rfl] at h1
      rw [List.take_of_length_le] at h1
      · exact h1
      · simp only [List.length_append, List.length_take]
        have h3 : (pstr "AL-").length = 3 := rfl
        omega
    · intro ht
      rw [pyOr_of_truthy ht] at h1
      exact h1

/-- The fixed clock value of `envW`. -/
def dtW : PyDateTime := ⟨2026, 1, 2, 3, 4, 5, 0, Option.none⟩

/-- The login-loop output on `rowAl` (which lacks `log_id`). -/
def loginW : LoginActivity :=
  match loginFromRow envW 0 rowAl with
  | .ok l => l
  | .error _ => ⟨[], [], [], [], [], [], dtW⟩

/-- The transaction-loop output on `rowAl` (which lacks `tx_id`). -/
def txW : Transaction :=
  match txFromRow envW 0 rowAl with
  | .ok t => t
  | .error _ => ⟨[], [], [], [], [], 0, [], [], [], dtW, PyVal.none⟩

/-- The alert-loop output on `rowAl` at row position 1. -/
def alertW : Alert :=
  match alertFromRow envW 1 rowAl with
  | .ok a => a
  | .error _ => ⟨[], [], Option.none, [], [], dtW, PyVal.none⟩

/-- C7 (witness): the amended theorem applied to concrete id-less rows. -/
theorem C7_amended_thm_witness :
    loginFromRow envW 0 rowAl = .ok loginW ∧
    loginW.login_id = pstr "LG-" ++ (envW.uuidLogin 0).take 24 ∧
    txFromRow envW 0 rowAl = .ok txW ∧
    txW.tx_id = (envW.uuidTx 0).take 32 ∧
    alertFromRow envW 1 rowAl = .ok alertW ∧
    alertW.alert_id = pstr "AL-" ++ (envW.uuidAlert 1).take 22 :=
  ⟨rfl, (C7_amended_thm.1 envW 0 rowAl loginW rfl).1 rfl,
   rfl, (C7_amended_thm.2.1 envW 0 rowAl txW rfl).1 rfl,
   rfl, (C7_amended_thm.2.2 envW 1 rowAl alertW rfl).1 rfl⟩

/-! ### C8 -/

/-- C8 (confirmed): the stated default-and-truncate policy — client row
`client_id="42"`, `full_name` null, `dob` null yields `client_id`
`"C0000042"`, `full_name` `"Unknown Client"`, `dob` 1990-01-01; a
200-character `full_name` is truncated to its first 120 characters; and
neither row raises. -/
theorem C8_thm : ∀ env : Env,
    (∃ c rr, clientFromRow env row42 = .ok (c, rr) ∧
      c.client_id = pstr "C0000042" ∧ c.full_name = pstr "Unknown Client" ∧
      c.dob = DateV.d ⟨1990, 1, 1⟩) ∧
    (∃ c rr, clientFromRow env rowLong = .ok (c, rr) ∧
      c.full_name = (List.replicate 200 'a').take 120 ∧
      c.full_name = List.replicate 120 'a') := by
  intro env
  refine ⟨⟨_, _, rfl, rfl, rfl, rfl⟩, ⟨_, _, rfl, rfl, ?_⟩⟩
  show List.take 120 (List.replicate 200 'a') = List.replicate 120 'a'
  simp [List.take_replicate]

/-- On a successful run the committed per-class counts are exactly the
source-table row counts — independent of the target store's prior
contents (they were deleted) and of the run's clock/token environment. -/
theorem runMigration_counts {env : Env} {src : SourceData} {t0 t : TargetStore}
    (h : runMigration env src t0 = .ok t) :
    storeCounts t = [src.clients.length, src.clients.length, src.addresses.length,
      src.phones.length, src.ip_logs.length, src.txs.length, src.cases.length,
      src.alerts.length] := by
  rw [runMigration] at h
  obtain ⟨ps, h1, h⟩ := bind_ok h
  obtain ⟨ads, h2, h⟩ := bind_ok h
  obtain ⟨phs, h3, h⟩ := bind_ok h
  obtain ⟨lgs, h4, h⟩ := bind_ok h
  obtain ⟨txs, h5, h⟩ := bind_ok h
  obtain ⟨css, h6, h⟩ := bind_ok h
  obtain ⟨als, h7, h⟩ := bind_ok h
  cases Except.ok.inj h
  simp [storeCounts, clientObjs, riskObjs, clearedStore,
    mapExc_ok_length h1, mapExc_ok_length h2, mapExc_ok_length h3,
    mapExc_ok_length h4, mapExc_ok_length h5, mapExc_ok_length h6, mapExc_ok_length h7]

/-! ### C9 -/

/-- C9 (confirmed): running the migration twice against an unchanged
source (under any two run environments) yields identical per-entity-class
row counts after each run — each run deletes all prior rows of the eight
entity classes before loading its freshly transformed batches. -/
theorem C9_thm : ∀ (env1 env2 : Env) (src : SourceData) (t0 t1 t2 : TargetStore),
    runMigration env1 src t0 = .ok t1 → runMigration env2 src t1 = .ok t2 →
    storeCounts t2 = storeCounts t1 := by
  intro env1 env2 src t0 t1 t2 h1 h2
  rw [runMigration_counts h1, runMigration_counts h2]

/-- A one-client source. -/
def srcW : SourceData := ⟨[row42], [], [], [], [], [], []⟩

/-- The target store after a first run on `srcW`. -/
def storeW1 : TargetStore :=
  match runMigration envW srcW clearedStore with
  | .ok t => t
  | .error _ => clearedStore

/-- The target store after a second run on the unchanged `srcW`. -/
def storeW2 : TargetStore :=
  match runMigration envW srcW storeW1 with
  | .ok t => t
  | .error _ => clearedStore

/-- C9 (witness): the theorem applied to two concrete runs. -/
theorem C9_thm_witness :
    runMigration envW srcW clearedStore = .ok storeW1 ∧
    runMigration envW srcW storeW1 = .ok storeW2 ∧
    storeCounts storeW2 = storeCounts storeW1 :=
  ⟨rfl, rfl, C9_thm envW envW srcW clearedStore storeW1 storeW2 rfl rfl⟩

theorem ite_eq_none_iff_false {α : Type} {b : Bool} {x : α} :
    ((if b = true then some x else Option.none) = Option.none) ↔ b = false := by
  cases b <;> simp

/-! ### C10 -/

/-- A case row whose `closed_at` is present but unparseable. -/
def rowGarbageClosed : Row :=
  [(pstr "closed_at", PyVal.str (pstr "garbage")),
   (pstr "client_id", PyVal.str (pstr "1"))]

/-- The case-loop output on `rowGarbageClosed`. -/
def caseW : Case :=
  match caseFromRow envW 0 rowGarbageClosed with
  | .ok k => k
  | .error _ => ⟨[], [], [], dtW, Option.none, []⟩

/-- C10 (counterexample): the claim says `Case.closed_at` is the coerced
source value whenever the source value is truthy and never receives the
`"now"` fallback.  On a truthy but unparseable `closed_at` (`"garbage"`),
`to_dt` degrades to its default `datetime.utcnow()` — the run's `now` —
so the field does receive the fallback. -/
theorem C10_counterexample :
    pyTruthy (pyGet rowGarbageClosed (pstr "closed_at")) = true ∧
    caseFromRow envW 0 rowGarbageClosed = .ok caseW ∧
    caseW.closed_at = some envW.now :=
  ⟨rfl, rfl, rfl⟩

/-- C10 (amended): for address-history and phone-history `to_date`, case
`closed_at` and alert `case_id`, the target field is `None` exactly when
the source value is absent or falsy; otherwise it carries the
coercer/normalizer applied to the source value — which may itself be the
coercer's default (or a synthesized `CASE-` identifier) when that value
is unparseable or strips to empty. -/
theorem C10_amended_thm :
    (∀ (env : Env) (r : Row) (rec : ClientAddressHistory), addrFromRow env r = .ok rec →
      ((rec.to_date = Option.none) ↔ pyTruthy (pyGet r (pstr "to_date")) = false) ∧
      (pyTruthy (pyGet r (pstr "to_date")) = true →
        rec.to_date = some (to_date (pyGet r (pstr "to_date"))))) ∧
    (∀ (env : Env) (r : Row) (rec : ClientPhoneHistory), phoneFromRow env r = .ok rec →
      ((rec.to_date = Option.none) ↔ pyTruthy (pyGet r (pstr "to_date")) = false) ∧
      (pyTruthy (pyGet r (pstr "to_date")) = true →
        rec.to_date = some (to_date (pyGet r (pstr "to_date"))))) ∧
    (∀ (env : Env) (i : Nat) (r : Row) (rec : Case), caseFromRow env i r = .ok rec →
      ((rec.closed_at = Option.none) ↔ pyTruthy (pyGet r (pstr "closed_at")) = false) ∧
      (pyTruthy (pyGet r (pstr "closed_at")) = true →
        rec.closed_at = some (to_dt (pyGet r (pstr "closed_at")) env.now))) ∧
    (∀ (env : Env) (i : Nat) (r : Row) (a : Alert), alertFromRow env i r = .ok a →
      ((a.case_id = Option.none) ↔ pyTruthy (pyGet r (pstr "case_id")) = false) ∧
      (pyTruthy (pyGet r (pstr "case_id")) = true →
        a.case_id = some (norm_case_id (env.uuidAlertCase i) (pyGet r (pstr "case_id"))))) := by
  refine ⟨?_, ?_, ?_, ?_⟩
  · intro env r rec h
    have h1 := (addrFromRow_ok h).1
    rw [h1]
    exact ⟨ite_eq_none_iff_false, fun ht => by rw [if_pos ht]⟩
  · intro env r rec h
    have h1 := (phoneFromRow_ok h).1
    rw [h1]
    exact ⟨ite_eq_none_iff_false, fun ht => by rw [if_pos ht]⟩
  · intro env i r rec h
    have h1 := (caseFromRow_ok h).2
    rw [h1]
    exact ⟨ite_eq_none_iff_false, fun ht => by rw [if_pos ht]⟩
  · intro env i r a h
    have h1 := (alertFromRow_ok h).2
    rw [h1]
    exact ⟨ite_eq_none_iff_false, fun ht => by rw [if_pos ht]⟩

/-- An address row with a parseable `to_date`. -/
def rowTo : Row :=
  [(pstr "client_id", PyVal.str (pstr "1")),
   (pstr "to_date", PyVal.str (pstr "2001-02-03"))]

/-- The address-loop output on `rowTo`. -/
def addrW : ClientAddressHistory :=
  match addrFromRow envW rowTo with
  | .ok a => a
  | .error _ => ⟨[], [], [], [], DateV.d ⟨1990, 1, 1⟩, Option.none⟩

/-- The case-loop output on `rowAl` (which lacks `closed_at`). -/
def caseW2 : Case :=
  match caseFromRow envW 1 rowAl with
  | .ok k => k
  | .error _ => ⟨[], [], [], dtW, Option.none, []⟩

/-- C10 (witness): the amended theorem applied to a truthy parseable
`to_date` and to an absent `closed_at`. -/
theorem C10_amended_thm_witness :
    addrFromRow envW rowTo = .ok addrW ∧
    addrW.to_date = some (to_date (pyGet rowTo (pstr "to_date"))) ∧
    caseFromRow envW 1 rowAl = .ok caseW2 ∧
    caseW2.closed_at = Option.none :=
  ⟨rfl, (C10_amended_thm.1 envW rowTo addrW rfl).2 rfl,
   rfl, ((C10_amended_thm.2.2.1 envW 1 rowAl caseW2 rfl).1).mpr rfl⟩

end DataGen
